import Mathlib

/-!
Verification development for a small event-listing HTTP backend
(`main.py` + `schemas.py`).

The embedding is shallow:
  * Python values returned by the document-storage gateway (MongoDB via
    pymongo) are modelled by the inductive `Value` (strings, dates,
    datetimes, booleans, integers, object identifiers, None, lists).
  * A Python `dict` is modelled as a total function `String → Option Value`
    (`RecordT`); key assignment and `pop` are the obvious updates.  Lean
    functions are immutable, so `dict(d)`-then-mutate in the source becomes
    building a new record from `d` — input records are never modified, by
    construction.
  * Python code that can raise is modelled in `Except String`; a
    `try/except` block becomes an explicit match on the `Except` result.
  * Pydantic model validation (`EventCreate` in `main.py`, `Event` in
    `schemas.py`) is modelled field by field over `Value` inputs: string
    fields accept exactly strings (empty allowed), the `date` field accepts
    date objects and ISO-8601 `YYYY-MM-DD` strings, `tags` accepts lists of
    strings, `is_featured` accepts booleans, `cover_image` accepts strings
    or None/absent.  Validation errors carry the offending field's name.
-/

/-- A calendar date as carried by a Python `datetime.date` object. -/
structure PDate where
  year : Nat
  month : Nat
  day : Nat
deriving DecidableEq, Repr

/-- `date.replace(day=n)`. -/
def PDate.replaceDay (d : PDate) (n : Nat) : PDate := { d with day := n }

/-- Left-pad to two digits. -/
def pad2 (n : Nat) : String := if n < 10 then "0" ++ toString n else toString n

/-- Left-pad to four digits. -/
def pad4 (n : Nat) : String :=
  if n < 10 then "000" ++ toString n
  else if n < 100 then "00" ++ toString n
  else if n < 1000 then "0" ++ toString n
  else toString n

/-- `date.isoformat()`: `YYYY-MM-DD`. -/
def isoDate (d : PDate) : String := pad4 d.year ++ "-" ++ pad2 d.month ++ "-" ++ pad2 d.day

/-- Scalar list items (as they appear inside `tags`-style list values). -/
inductive SValue where
  | sstr (s : String)
  | sint (n : Int)
  | sbool (b : Bool)
  | snone
deriving DecidableEq, Repr

/-- Python values that the storage gateway can hold or return.
`voidn` models a BSON ObjectId (its string form is modelled as the decimal
rendering of the underlying number; only injectivity and stringness matter
here).  List values carry scalar items (`SValue`); `str` renderings of
lists are modelled coarsely, as no code path under verification depends on
them. -/
inductive Value where
  | vstr (s : String)
  | vdate (d : PDate)
  | vdatetime (d : PDate) (hh mm ss : Nat)
  | vbool (b : Bool)
  | vint (n : Int)
  | voidn (n : Nat)
  | vnone
  | vlist (vs : List SValue)
deriving DecidableEq, Repr

/-- `x.isoformat()` as a partial attribute: available exactly on date and
datetime objects (so `hasattr(x, "isoformat")` is `(isoformatOpt x).isSome`). -/
def isoformatOpt : Value → Option String
  | .vdate d => some (isoDate d)
  | .vdatetime d hh mm ss => some (isoDate d ++ "T" ++ pad2 hh ++ ":" ++ pad2 mm ++ ":" ++ pad2 ss)
  | _ => none

/-- Python `str(x)` over the modelled value domain. -/
def pyStr : Value → String
  | .vstr s => s
  | .vdate d => isoDate d
  | .vdatetime d hh mm ss => isoDate d ++ " " ++ pad2 hh ++ ":" ++ pad2 mm ++ ":" ++ pad2 ss
  | .vbool b => if b then "True" else "False"
  | .vint n => toString n
  | .voidn n => toString n
  | .vnone => "None"
  | .vlist _ => "[...]"

/-- A Python dict keyed by strings. -/
abbrev RecordT := String → Option Value

/-- The empty dict. -/
def emptyRec : RecordT := fun _ => none

/-- `d[k] = v`. -/
def setK (r : RecordT) (k : String) (v : Value) : RecordT :=
  fun k' => if k' = k then some v else r k'

/-- `d.pop(k)` (the removal effect). -/
def popK (r : RecordT) (k : String) : RecordT :=
  fun k' => if k' = k then none else r k'

/-- Build a dict from a literal list of pairs (later entries shadow earlier
ones at the head, matching a Python dict literal with distinct keys). -/
def ofList : List (String × Value) → RecordT
  | [] => emptyRec
  | (k, v) :: rest => setK (ofList rest) k v

/-- `d[k]` as a raising operation: `KeyError` when the key is absent. -/
def getItem (r : RecordT) (k : String) : Except String Value :=
  match r k with
  | some v => .ok v
  | none => .error ("KeyError: " ++ k)

/-- `x.isoformat()` as a raising call: `AttributeError` when absent. -/
def callIso (v : Value) : Except String String :=
  match isoformatOpt v with
  | some s => .ok s
  | none => .error "AttributeError: isoformat"

/-- `try: x except Exception: fallback`. -/
def tryE (x fallback : Except String α) : Except String α :=
  match x with
  | .ok a => .ok a
  | .error _ => fallback

/-! ## Calendar-date parsing (pydantic lax `date` from an ISO string) -/

/-- Digit character to its numeric value. -/
def digitVal (c : Char) : Nat := c.toNat - 48

/-- Days in a month, with Gregorian leap years. -/
def daysInMonth (y m : Nat) : Nat :=
  if m = 2 then (if (y % 4 = 0 ∧ y % 100 ≠ 0) ∨ y % 400 = 0 then 29 else 28)
  else if m = 4 ∨ m = 6 ∨ m = 9 ∨ m = 11 then 30
  else 31

/-- Validity of a year-month-day triple (Python `date` range). -/
def isValidYmd (y m d : Nat) : Bool :=
  decide (1 ≤ y) && decide (y ≤ 9999) && decide (1 ≤ m) && decide (m ≤ 12) &&
  decide (1 ≤ d) && decide (d ≤ daysInMonth y m)

/-- Parse an ISO-8601 `YYYY-MM-DD` string into a calendar date. -/
def parseDate (s : String) : Option PDate :=
  match s.toList with
  | [y1, y2, y3, y4, h1, m1, m2, h2, d1, d2] =>
    if h1 = '-' ∧ h2 = '-' ∧
       (y1.isDigit && y2.isDigit && y3.isDigit && y4.isDigit &&
        m1.isDigit && m2.isDigit && d1.isDigit && d2.isDigit) = true then
      let y := ((digitVal y1 * 10 + digitVal y2) * 10 + digitVal y3) * 10 + digitVal y4
      let m := digitVal m1 * 10 + digitVal m2
      let d := digitVal d1 * 10 + digitVal d2
      if isValidYmd y m d then some ⟨y, m, d⟩ else none
    else none
  | _ => none

/-! ## Field validators (pydantic semantics over the `Value` domain) -/

/-- Required `str` field. -/
def reqStr (name : String) (v : Option Value) : Except String String :=
  match v with
  | none => .error (name ++ ": Field required")
  | some (.vstr s) => .ok s
  | some _ => .error (name ++ ": Input should be a valid string")

/-- Required `date` field: accepts a date object or an ISO date string. -/
def reqDate (name : String) (v : Option Value) : Except String PDate :=
  match v with
  | none => .error (name ++ ": Field required")
  | some (.vdate d) => .ok d
  | some (.vstr s) =>
    match parseDate s with
    | some d => .ok d
    | none => .error (name ++ ": Input should be a valid date")
  | some _ => .error (name ++ ": Input should be a valid date")

/-- Optional `Optional[str]` field defaulting to `None`. -/
def optStr (name : String) (v : Option Value) : Except String (Option String) :=
  match v with
  | none => .ok none
  | some .vnone => .ok none
  | some (.vstr s) => .ok (some s)
  | some _ => .error (name ++ ": Input should be a valid string")

/-- Extract a list of strings from list items. -/
def asStrList (name : String) : List SValue → Except String (List String)
  | [] => .ok []
  | .sstr s :: rest =>
    match asStrList name rest with
    | .ok ss => .ok (s :: ss)
    | .error e => .error e
  | _ :: _ => .error (name ++ ": Input should be a valid string")

/-- Optional `List[str]` field defaulting to the empty list. -/
def optTags (name : String) (v : Option Value) : Except String (List String) :=
  match v with
  | none => .ok []
  | some (.vlist vs) => asStrList name vs
  | some _ => .error (name ++ ": Input should be a valid list")

/-- Optional `bool` field defaulting to `false`. -/
def optBool (name : String) (v : Option Value) : Except String Bool :=
  match v with
  | none => .ok false
  | some (.vbool b) => .ok b
  | some _ => .error (name ++ ": Input should be a valid boolean")

/-! ## The two pydantic models

`Event` is the storage schema from `schemas.py`; `EventCreate` is the
request model from `main.py`.  Each is translated from its own class
declaration; the bodies coincide because the two classes declare the same
fields with the same types and defaults. -/

/-- `schemas.Event`: the storage collection schema. -/
structure Event where
  title : String
  description : String
  event_date : PDate
  event_time : String
  location : String
  category : String
  cover_image : Option String
  tags : List String
  is_featured : Bool
deriving DecidableEq, Repr

/-- `Event(**input)`: pydantic validation of an input mapping against
`schemas.Event`, fields checked in declaration order. -/
def Event.validate (r : RecordT) : Except String Event := do
  let title ← reqStr "title" (r "title")
  let description ← reqStr "description" (r "description")
  let event_date ← reqDate "event_date" (r "event_date")
  let event_time ← reqStr "event_time" (r "event_time")
  let location ← reqStr "location" (r "location")
  let category ← reqStr "category" (r "category")
  let cover_image ← optStr "cover_image" (r "cover_image")
  let tags ← optTags "tags" (r "tags")
  let is_featured ← optBool "is_featured" (r "is_featured")
  pure ⟨title, description, event_date, event_time, location, category,
        cover_image, tags, is_featured⟩

/-- `main.EventCreate`: the request-body model. -/
structure EventCreate where
  title : String
  description : String
  event_date : PDate
  event_time : String
  location : String
  category : String
  cover_image : Option String
  tags : List String
  is_featured : Bool
deriving DecidableEq, Repr

/-- Request-body parsing of an input mapping against `main.EventCreate`
(the validation FastAPI performs before calling the handler), fields
checked in declaration order. -/
def EventCreate.validate (r : RecordT) : Except String EventCreate := do
  let title ← reqStr "title" (r "title")
  let description ← reqStr "description" (r "description")
  let event_date ← reqDate "event_date" (r "event_date")
  let event_time ← reqStr "event_time" (r "event_time")
  let location ← reqStr "location" (r "location")
  let category ← reqStr "category" (r "category")
  let cover_image ← optStr "cover_image" (r "cover_image")
  let tags ← optTags "tags" (r "tags")
  let is_featured ← optBool "is_featured" (r "is_featured")
  pure ⟨title, description, event_date, event_time, location, category,
        cover_image, tags, is_featured⟩

/-- `event.model_dump()`: the canonical mapping of a parsed request model. -/
def EventCreate.modelDump (e : EventCreate) : RecordT :=
  ofList [
    ("title", .vstr e.title),
    ("description", .vstr e.description),
    ("event_date", .vdate e.event_date),
    ("event_time", .vstr e.event_time),
    ("location", .vstr e.location),
    ("category", .vstr e.category),
    ("cover_image", match e.cover_image with | some s => .vstr s | none => .vnone),
    ("tags", .vlist (e.tags.map SValue.sstr)),
    ("is_featured", .vbool e.is_featured)
  ]

/-! ## `serialize_event` (`main.py`, lines 130-146)

The pure version is factored into the four mutation stages of the source;
`serialize_eventE` is the same code with every raising Python primitive
(`d[k]`, attribute access, the inner `try/except`) made explicit in
`Except`, so totality is a theorem rather than a typing accident. -/

/-- `if "_id" in out: out["id"] = str(out.pop("_id"))`. -/
def idStep (out : RecordT) : RecordT :=
  match out "_id" with
  | some v => setK (popK out "_id") "id" (.vstr (pyStr v))
  | none => out

/-- The date-rendering expression: `isoformat()` when available, else
`str(...)`; the surrounding `try/except` also falls back to `str(...)`. -/
def renderDate (v : Value) : String :=
  match isoformatOpt v with
  | some s => s
  | none => pyStr v

/-- The `event_date` → `date` stage. -/
def dateStep (out : RecordT) : RecordT :=
  match out "event_date" with
  | some v => setK out "date" (.vstr (renderDate v))
  | none => out

/-- The `event_time` → `time` stage. -/
def timeStep (out : RecordT) : RecordT :=
  match out "event_time" with
  | some v => setK out "time" v
  | none => out

/-- One iteration of the timestamp loop:
`if ts in out and hasattr(out[ts], "isoformat"): out[ts] = out[ts].isoformat()`. -/
def tsStep (k : String) (out : RecordT) : RecordT :=
  match out k with
  | some v =>
    match isoformatOpt v with
    | some s => setK out k (.vstr s)
    | none => out
  | none => out

/-- `serialize_event(d)`: pure form. -/
def serialize_event (d : RecordT) : RecordT :=
  tsStep "updated_at" (tsStep "created_at" (timeStep (dateStep (idStep d))))

/-- The timestamp loop iteration with raising primitives explicit. -/
def tsStepE (k : String) (out : RecordT) : Except String RecordT :=
  if (out k).isSome then do
    let v ← getItem out k
    if (isoformatOpt v).isSome then do
      let s ← callIso v
      pure (setK out k (.vstr s))
    else pure out
  else pure out

/-- The `_id` stage with raising primitives explicit. -/
def idStepE (out : RecordT) : Except String RecordT :=
  if (out "_id").isSome then do
    let v ← getItem out "_id"
    pure (setK (popK out "_id") "id" (.vstr (pyStr v)))
  else pure out

/-- The `event_date` stage with raising primitives explicit (the inner
`try/except` falls back to `str(out["event_date"])`). -/
def dateStepE (out : RecordT) : Except String RecordT :=
  if (out "event_date").isSome then do
    let s ← tryE
      (do
        let v ← getItem out "event_date"
        if (isoformatOpt v).isSome then callIso v
        else do
          let v2 ← getItem out "event_date"
          pure (pyStr v2))
      (do
        let v ← getItem out "event_date"
        pure (pyStr v))
    pure (setK out "date" (.vstr s))
  else pure out

/-- The `event_time` stage with raising primitives explicit. -/
def timeStepE (out : RecordT) : Except String RecordT :=
  if (out "event_time").isSome then do
    let v ← getItem out "event_time"
    pure (setK out "time" v)
  else pure out

/-- `serialize_event(d)` with raising primitives explicit. -/
def serialize_eventE (d : RecordT) : Except String RecordT := do
  let out1 ← idStepE d
  let out2 ← dateStepE out1
  let out3 ← timeStepE out2
  let out4 ← tsStepE "created_at" out3
  let out5 ← tsStepE "updated_at" out4
  pure out5

/-! ## The storage gateway

The gateway (the `database` module plus the MongoDB handle `db`) is an
external collaborator; it is modelled as explicit state.  Failure modes are
injected through flags: `dbNone` models `db is None`; `countFails`,
`insertFailAt` and `findFails` model the corresponding calls raising.
`insertFailAt = some k` makes the `k`-th insert call (counted by
`insertCalls`) raise, so a failure at any single insert is expressible. -/

structure Gateway where
  dbNone : Bool
  countFails : Bool
  findFails : Bool
  insertFailAt : Option Nat
  nextId : Nat
  insertCalls : Nat
  events : List RecordT

/-- A gateway whose seeding-path operations (availability, count, insert)
all succeed. -/
def Gateway.healthy (g : Gateway) : Prop :=
  g.dbNone = false ∧ g.countFails = false ∧ g.insertFailAt = none

/-- `create_document("event", r)`: stores the record with a fresh `_id` and
returns that identifier. -/
def create_document (g : Gateway) (r : RecordT) : Except String Value × Gateway :=
  if g.insertFailAt = some g.insertCalls then
    (.error "Gateway insert failure", { g with insertCalls := g.insertCalls + 1 })
  else
    (.ok (.voidn g.nextId),
     { g with
        events := g.events ++ [setK r "_id" (.voidn g.nextId)],
        nextId := g.nextId + 1,
        insertCalls := g.insertCalls + 1 })

/-- `db["event"].count_documents({})`. -/
def count_documents (g : Gateway) : Except String Nat :=
  if g.countFails then .error "Gateway count failure" else .ok g.events.length

/-- A Mongo equality filter matches a record when every filter pair is an
equal field of the record. -/
def matchesF (filt : List (String × Value)) (r : RecordT) : Bool :=
  filt.all fun p => decide (r p.1 = some p.2)

/-- `get_documents("event", filt)`: all stored records matching the filter,
in storage order. -/
def get_documents (g : Gateway) (filt : List (String × Value)) :
    Except String (List RecordT) :=
  if g.dbNone then .error "Gateway unavailable"
  else if g.findFails then .error "Gateway find failure"
  else .ok (g.events.filter (matchesF filt))

/-! ## Sample events and seeding (`main.py`, lines 80-127)

`SAMPLE_EVENTS` is computed at import time from `date.today()`; the current
date is passed in as the parameter `today`. -/

/-- First sample event literal. -/
def sample1 (today : PDate) : RecordT :=
  ofList [
    ("title", .vstr "Tech Symposium 2025"),
    ("description", .vstr "A showcase of cutting-edge projects, keynote talks, and hackathon finals."),
    ("event_date", .vdate (today.replaceDay (min 28 today.day))),
    ("event_time", .vstr "10:00 AM"),
    ("location", .vstr "Main Auditorium"),
    ("category", .vstr "Tech"),
    ("cover_image", .vstr "https://images.unsplash.com/photo-1551836022-d5d88e9218df?q=80&w=1600&auto=format&fit=crop"),
    ("tags", .vlist [.sstr "ai", .sstr "robotics", .sstr "talks"]),
    ("is_featured", .vbool true)
  ]

/-- Second sample event literal. -/
def sample2 (today : PDate) : RecordT :=
  ofList [
    ("title", .vstr "Cultural Night Fiesta"),
    ("description", .vstr "An evening of performances, fashion show, and food stalls."),
    ("event_date", .vdate today),
    ("event_time", .vstr "06:30 PM"),
    ("location", .vstr "Open Air Theatre"),
    ("category", .vstr "Cultural"),
    ("cover_image", .vstr "https://images.unsplash.com/photo-1515165562835-c3b8c0b1a3b0?q=80&w=1600&auto=format&fit=crop"),
    ("tags", .vlist [.sstr "dance", .sstr "music", .sstr "food"]),
    ("is_featured", .vbool true)
  ]

/-- Third sample event literal. -/
def sample3 (today : PDate) : RecordT :=
  ofList [
    ("title", .vstr "Data Science Workshop"),
    ("description", .vstr "Hands-on bootcamp on Python, pandas, and ML pipelines."),
    ("event_date", .vdate today),
    ("event_time", .vstr "02:00 PM"),
    ("location", .vstr "Lab Complex - 204"),
    ("category", .vstr "Workshop"),
    ("cover_image", .vstr "https://images.unsplash.com/photo-1555949963-aa79dcee981d?q=80&w=1600&auto=format&fit=crop"),
    ("tags", .vlist [.sstr "python", .sstr "ml", .sstr "workshop"]),
    ("is_featured", .vbool false)
  ]

/-- `SAMPLE_EVENTS`: the fixed ordered list of three sample events. -/
def SAMPLE_EVENTS (today : PDate) : List RecordT :=
  [sample1 today, sample2 today, sample3 today]

/-- The `for ev in SAMPLE_EVENTS: create_document("event", ev)` loop; an
insert failure stops the loop but keeps the state reached so far. -/
def insertAll : List RecordT → Gateway → Except String Unit × Gateway
  | [], g => (.ok (), g)
  | r :: rs, g =>
    match create_document g r with
    | (.error e, g') => (.error e, g')
    | (.ok _, g') => insertAll rs g'

/-- The body of `ensure_seed` inside its `try`. -/
def ensure_seed_body (today : PDate) (g : Gateway) : Except String Unit × Gateway :=
  if g.dbNone then (.ok (), g)
  else
    match count_documents g with
    | .error e => (.error e, g)
    | .ok count =>
      if count = 0 then insertAll (SAMPLE_EVENTS today) g
      else (.ok (), g)

/-- `ensure_seed()`: the `try/except Exception: pass` wrapper swallows any
failure, keeping whatever state the body reached. -/
def ensure_seed (today : PDate) (g : Gateway) : Gateway :=
  (ensure_seed_body today g).2

/-! ## HTTP handlers (`main.py`, lines 149-172) -/

/-- The filter construction in `list_events`: `if category:` is a Python
truthiness test (skips both `None` and `""`); `if featured is not None:`
keeps `False` distinct from absent. -/
def build_filter (category : Option String) (featured : Option Bool) :
    List (String × Value) :=
  let filt : List (String × Value) := []
  let filt :=
    match category with
    | some c => if c = "" then filt else filt ++ [("category", Value.vstr c)]
    | none => filt
  match featured with
  | some b => filt ++ [("is_featured", Value.vbool b)]
  | none => filt

/-- Lookup of a clause in a built filter. -/
def filterLookup (filt : List (String × Value)) (k : String) : Option Value :=
  (filt.find? fun p => p.1 == k).map (·.2)

/-- The list comprehension `[serialize_event(d) for d in docs]`; the first
exception propagates. -/
def serializeAll : List RecordT → Except String (List RecordT)
  | [] => .ok []
  | d :: ds =>
    match serialize_eventE d with
    | .error e => .error e
    | .ok r =>
      match serializeAll ds with
      | .error e => .error e
      | .ok rs => .ok (r :: rs)

/-- `GET /api/events`: seeds (best effort), builds the filter, queries, and
serializes; a failure in the `try` block becomes an HTTP 500. -/
def list_events (today : PDate) (g : Gateway)
    (category : Option String) (featured : Option Bool) :
    Except (Nat × String) (List RecordT) × Gateway :=
  match get_documents (ensure_seed today g) (build_filter category featured) with
  | .error e => (.error (500, e), ensure_seed today g)
  | .ok docs =>
    match serializeAll docs with
    | .error e => (.error (500, e), ensure_seed today g)
    | .ok out => (.ok out, ensure_seed today g)

/-- HTTP outcome of the create endpoint. -/
inductive ApiResponse where
  | success (status : Nat) (id : Value) (message : String)
  | failure (status : Nat) (detail : String)
deriving DecidableEq, Repr

/-- 4xx? -/
def ApiResponse.isClientError : ApiResponse → Bool
  | .failure s _ => decide (400 ≤ s) && decide (s < 500)
  | _ => false

/-- 5xx? -/
def ApiResponse.isServerError : ApiResponse → Bool
  | .failure s _ => decide (500 ≤ s)
  | _ => false

/-- `POST /api/events` handler body: re-validates the parsed model against
`schemas.Event`, then inserts; the single `except Exception` clause turns
ANY failure — validation or gateway — into HTTP 400. -/
def create_event (g : Gateway) (event : EventCreate) : ApiResponse × Gateway :=
  match Event.validate event.modelDump with
  | .error e => (.failure 400 e, g)
  | .ok _ =>
    match create_document g event.modelDump with
    | (.error e, g') => (.failure 400 e, g')
    | (.ok oid, g') => (.success 201 oid "Event created", g')

/-- The full create path: FastAPI parses the request body into
`EventCreate` (a parse failure is an HTTP 422 client error and the handler
never runs), then the handler executes. -/
def create_api (g : Gateway) (input : RecordT) : ApiResponse × Gateway :=
  match EventCreate.validate input with
  | .error e => (.failure 422 e, g)
  | .ok ev => create_event g ev

/-! ## Spec-side acceptance predicate

`acceptSpec` restates the specification's validation rule (§4.1) as a
predicate on the input mapping, with the amendment forced by the code: the
four text fields are required to be text but may be empty. It is compared
against the source-derived validators in the claim theorems. -/

/-- Did an `Except` computation succeed? -/
def okB : Except String α → Bool
  | .ok _ => true
  | .error _ => false

/-- List item is text. -/
def isStrItem : SValue → Bool
  | .sstr _ => true
  | _ => false

/-- Required text field present (possibly empty text). -/
def strFieldOK : Option Value → Bool
  | some (.vstr _) => true
  | _ => false

/-- `event_date` present and parses as a calendar date. -/
def dateFieldOK : Option Value → Bool
  | some (.vdate _) => true
  | some (.vstr s) => (parseDate s).isSome
  | _ => false

/-- `cover_image` absent, null, or text. -/
def coverFieldOK : Option Value → Bool
  | none => true
  | some .vnone => true
  | some (.vstr _) => true
  | _ => false

/-- `tags` absent or a list of text items. -/
def tagsFieldOK : Option Value → Bool
  | none => true
  | some (.vlist vs) => vs.all isStrItem
  | _ => false

/-- `is_featured` absent or boolean. -/
def boolFieldOK : Option Value → Bool
  | none => true
  | some (.vbool _) => true
  | _ => false

/-- The specification's acceptance condition (§4.1), amended on the four
text fields: present and text, emptiness allowed. -/
def acceptSpec (r : RecordT) : Bool :=
  strFieldOK (r "title") && strFieldOK (r "description") &&
  dateFieldOK (r "event_date") && strFieldOK (r "event_time") &&
  strFieldOK (r "location") && strFieldOK (r "category") &&
  coverFieldOK (r "cover_image") && tagsFieldOK (r "tags") &&
  boolFieldOK (r "is_featured")

/-! ## Concrete fixtures for witnesses and counterexamples -/

/-- A gateway that is fully healthy and empty. -/
def gw0 : Gateway := ⟨false, false, false, none, 0, 0, []⟩

/-- A gateway whose next insert call raises (count and find succeed). -/
def gwBadInsert : Gateway := ⟨false, false, false, some 0, 0, 0, []⟩

/-- A gateway whose `count_documents` raises (the seeding path fails). -/
def gwBadCount : Gateway := ⟨false, true, false, none, 0, 0, []⟩

/-- A fixed current date. -/
def today0 : PDate := ⟨2025, 10, 12⟩

/-- A create request body that passes validation. -/
def validInput : RecordT :=
  ofList [
    ("title", .vstr "X"),
    ("description", .vstr "Y"),
    ("event_date", .vstr "2025-05-01"),
    ("event_time", .vstr "5 PM"),
    ("location", .vstr "Hall A"),
    ("category", .vstr "Tech")
  ]

/-- The parsed model of `validInput`. -/
def validParsed : EventCreate :=
  ⟨"X", "Y", ⟨2025, 5, 1⟩, "5 PM", "Hall A", "Tech", none, [], false⟩

/-- A create request body whose `title` is the empty string. -/
def emptyTitleInput : RecordT :=
  ofList [
    ("title", .vstr ""),
    ("description", .vstr "Y"),
    ("event_date", .vstr "2025-05-01"),
    ("event_time", .vstr "5 PM"),
    ("location", .vstr "Hall A"),
    ("category", .vstr "Tech")
  ]

/-- A create request body missing `title`. -/
def missingTitleInput : RecordT :=
  ofList [
    ("description", .vstr "Y"),
    ("event_date", .vstr "2025-05-01"),
    ("event_time", .vstr "5 PM"),
    ("location", .vstr "Hall A"),
    ("category", .vstr "Tech")
  ]

/-- A stored record as the gateway would return it. -/
def storedRec : RecordT :=
  ofList [
    ("_id", .voidn 7),
    ("title", .vstr "X"),
    ("event_date", .vdate ⟨2025, 5, 1⟩),
    ("event_time", .vstr "5 PM")
  ]

/-! ## Record-lookup and `Except`-bind lemmas -/

theorem setK_self (r : RecordT) (k : String) (v : Value) : setK r k v k = some v := by
  simp [setK]

theorem setK_ne (r : RecordT) (k : String) (v : Value) (k' : String) (h : k' ≠ k) :
    setK r k v k' = r k' := by
  simp [setK, h]

theorem popK_self (r : RecordT) (k : String) : popK r k k = none := by
  simp [popK]

theorem popK_ne (r : RecordT) (k k' : String) (h : k' ≠ k) : popK r k k' = r k' := by
  simp [popK, h]

theorem ok_bind {α β : Type} (a : α) (f : α → Except String β) :
    (Except.ok a >>= f) = f a := rfl

theorem error_bind {α β : Type} (e : String) (f : α → Except String β) :
    ((Except.error e : Except String α) >>= f) = .error e := rfl

/-! ## Key behaviour of the serializer stages -/

theorem idStep_uid (d : RecordT) : idStep d "_id" = none := by
  unfold idStep
  cases h : d "_id" with
  | none => exact h
  | some v =>
    dsimp only
    rw [setK_ne _ _ _ _ (by decide), popK_self]

theorem idStep_id (d : RecordT) :
    idStep d "id" =
      (match d "_id" with
       | some v => some (.vstr (pyStr v))
       | none => d "id") := by
  unfold idStep
  cases h : d "_id" with
  | none => rfl
  | some v =>
    dsimp only
    rw [setK_self]

theorem idStep_ne (d : RecordT) (k : String) (h1 : k ≠ "_id") (h2 : k ≠ "id") :
    idStep d k = d k := by
  unfold idStep
  cases h : d "_id" with
  | none => rfl
  | some v =>
    dsimp only
    rw [setK_ne _ _ _ _ h2, popK_ne _ _ _ h1]

theorem dateStep_date (d : RecordT) :
    dateStep d "date" =
      (match d "event_date" with
       | some v => some (.vstr (renderDate v))
       | none => d "date") := by
  unfold dateStep
  cases h : d "event_date" with
  | none => rfl
  | some v =>
    dsimp only
    rw [setK_self]

theorem dateStep_ne (d : RecordT) (k : String) (h : k ≠ "date") :
    dateStep d k = d k := by
  unfold dateStep
  cases h2 : d "event_date" with
  | none => rfl
  | some v =>
    dsimp only
    rw [setK_ne _ _ _ _ h]

theorem timeStep_time (d : RecordT) :
    timeStep d "time" =
      (match d "event_time" with
       | some v => some v
       | none => d "time") := by
  unfold timeStep
  cases h : d "event_time" with
  | none => rfl
  | some v =>
    dsimp only
    rw [setK_self]

theorem timeStep_ne (d : RecordT) (k : String) (h : k ≠ "time") :
    timeStep d k = d k := by
  unfold timeStep
  cases h2 : d "event_time" with
  | none => rfl
  | some v =>
    dsimp only
    rw [setK_ne _ _ _ _ h]

theorem tsStep_ne (key : String) (d : RecordT) (k : String) (h : k ≠ key) :
    tsStep key d k = d k := by
  unfold tsStep
  cases h2 : d key with
  | none => rfl
  | some v =>
    dsimp only
    cases h3 : isoformatOpt v with
    | none => rfl
    | some s =>
      dsimp only
      rw [setK_ne _ _ _ _ h]

/-! ## Serializer key lemmas (composed) -/

theorem serialize_event_uid (d : RecordT) : (serialize_event d) "_id" = none := by
  unfold serialize_event
  rw [tsStep_ne _ _ _ (by decide), tsStep_ne _ _ _ (by decide),
      timeStep_ne _ _ (by decide), dateStep_ne _ _ (by decide), idStep_uid]

theorem serialize_event_id (d : RecordT) :
    (serialize_event d) "id" =
      (match d "_id" with
       | some v => some (.vstr (pyStr v))
       | none => d "id") := by
  unfold serialize_event
  rw [tsStep_ne _ _ _ (by decide), tsStep_ne _ _ _ (by decide),
      timeStep_ne _ _ (by decide), dateStep_ne _ _ (by decide), idStep_id]

theorem serialize_event_date (d : RecordT) :
    (serialize_event d) "date" =
      (match d "event_date" with
       | some v => some (.vstr (renderDate v))
       | none => d "date") := by
  unfold serialize_event
  rw [tsStep_ne _ _ _ (by decide), tsStep_ne _ _ _ (by decide),
      timeStep_ne _ _ (by decide), dateStep_date,
      idStep_ne _ _ (by decide) (by decide), idStep_ne _ _ (by decide) (by decide)]

theorem serialize_event_edate (d : RecordT) :
    (serialize_event d) "event_date" = d "event_date" := by
  unfold serialize_event
  rw [tsStep_ne _ _ _ (by decide), tsStep_ne _ _ _ (by decide),
      timeStep_ne _ _ (by decide), dateStep_ne _ _ (by decide),
      idStep_ne _ _ (by decide) (by decide)]

theorem serialize_event_time (d : RecordT) :
    (serialize_event d) "time" =
      (match d "event_time" with
       | some v => some v
       | none => d "time") := by
  unfold serialize_event
  rw [tsStep_ne _ _ _ (by decide), tsStep_ne _ _ _ (by decide), timeStep_time,
      dateStep_ne _ _ (by decide), idStep_ne _ _ (by decide) (by decide),
      dateStep_ne _ _ (by decide), idStep_ne _ _ (by decide) (by decide)]

theorem serialize_event_etime (d : RecordT) :
    (serialize_event d) "event_time" = d "event_time" := by
  unfold serialize_event
  rw [tsStep_ne _ _ _ (by decide), tsStep_ne _ _ _ (by decide),
      timeStep_ne _ _ (by decide), dateStep_ne _ _ (by decide),
      idStep_ne _ _ (by decide) (by decide)]

/-! ## Totality of the serializer: stage lemmas -/

theorem idStepE_ok (out : RecordT) : idStepE out = .ok (idStep out) := by
  unfold idStepE idStep
  cases h : out "_id" with
  | none => simp [h, pure, Except.pure]
  | some v => simp [h, getItem, ok_bind, pure, Except.pure]

theorem dateStepE_ok (out : RecordT) : dateStepE out = .ok (dateStep out) := by
  unfold dateStepE dateStep
  cases h : out "event_date" with
  | none => simp [h, pure, Except.pure]
  | some v =>
    cases h2 : isoformatOpt v <;>
      simp [h, h2, getItem, callIso, tryE, renderDate, ok_bind, pure, Except.pure]

theorem timeStepE_ok (out : RecordT) : timeStepE out = .ok (timeStep out) := by
  unfold timeStepE timeStep
  cases h : out "event_time" with
  | none => simp [h, pure, Except.pure]
  | some v => simp [h, getItem, ok_bind, pure, Except.pure]

theorem tsStepE_ok (key : String) (out : RecordT) : tsStepE key out = .ok (tsStep key out) := by
  unfold tsStepE tsStep
  cases h : out key with
  | none => simp [h, pure, Except.pure]
  | some v =>
    cases h2 : isoformatOpt v <;> simp [h, h2, getItem, callIso, ok_bind, pure, Except.pure]

theorem serialize_eventE_ok (d : RecordT) : serialize_eventE d = .ok (serialize_event d) := by
  unfold serialize_eventE serialize_event
  rw [idStepE_ok, ok_bind, dateStepE_ok, ok_bind, timeStepE_ok, ok_bind,
      tsStepE_ok, ok_bind, tsStepE_ok, ok_bind]
  rfl

theorem serializeAll_ok (ds : List RecordT) :
    serializeAll ds = .ok (ds.map serialize_event) := by
  induction ds with
  | nil => rfl
  | cons d rest ih => simp [serializeAll, serialize_eventE_ok, ih]

/-! ## Validator characterization lemmas -/

theorem okB_reqStr (n : String) (v : Option Value) : okB (reqStr n v) = strFieldOK v := by
  cases v with
  | none => rfl
  | some w => cases w <;> rfl

theorem okB_reqDate (n : String) (v : Option Value) : okB (reqDate n v) = dateFieldOK v := by
  cases v with
  | none => rfl
  | some w =>
    cases w with
    | vstr s =>
      unfold reqDate dateFieldOK
      cases h : parseDate s <;> simp [h, okB]
    | vdate d => rfl
    | vdatetime d hh mm ss => rfl
    | vbool b => rfl
    | vint m => rfl
    | voidn m => rfl
    | vnone => rfl
    | vlist vs => rfl

theorem okB_optStr (n : String) (v : Option Value) : okB (optStr n v) = coverFieldOK v := by
  cases v with
  | none => rfl
  | some w => cases w <;> rfl

theorem okB_cons_case (s : String) (e : Except String (List String)) :
    okB (match e with
         | .ok ss => (.ok (s :: ss) : Except String (List String))
         | .error er => .error er) = okB e := by
  cases e <;> rfl

theorem okB_asStrList (n : String) (vs : List SValue) :
    okB (asStrList n vs) = vs.all isStrItem := by
  induction vs with
  | nil => rfl
  | cons x rest ih =>
    cases x with
    | sstr s =>
      dsimp [asStrList, List.all, isStrItem]
      rw [okB_cons_case, ih]
      simp
    | sint m => simp [asStrList, okB, List.all, isStrItem]
    | sbool b => simp [asStrList, okB, List.all, isStrItem]
    | snone => simp [asStrList, okB, List.all, isStrItem]

theorem okB_optTags (n : String) (v : Option Value) : okB (optTags n v) = tagsFieldOK v := by
  cases v with
  | none => rfl
  | some w =>
    cases w with
    | vlist vs => exact okB_asStrList n vs
    | vstr s => rfl
    | vdate d => rfl
    | vdatetime d hh mm ss => rfl
    | vbool b => rfl
    | vint m => rfl
    | voidn m => rfl
    | vnone => rfl

theorem okB_optBool (n : String) (v : Option Value) : okB (optBool n v) = boolFieldOK v := by
  cases v with
  | none => rfl
  | some w => cases w <;> rfl

theorem okB_Event_validate (r : RecordT) : okB (Event.validate r) = acceptSpec r := by
  unfold Event.validate acceptSpec
  rw [← okB_reqStr "title" (r "title"), ← okB_reqStr "description" (r "description"),
      ← okB_reqDate "event_date" (r "event_date"), ← okB_reqStr "event_time" (r "event_time"),
      ← okB_reqStr "location" (r "location"), ← okB_reqStr "category" (r "category"),
      ← okB_optStr "cover_image" (r "cover_image"), ← okB_optTags "tags" (r "tags"),
      ← okB_optBool "is_featured" (r "is_featured")]
  cases reqStr "title" (r "title") <;>
    simp only [ok_bind, error_bind, okB, Bool.false_and, Bool.true_and]
  cases reqStr "description" (r "description") <;>
    simp only [ok_bind, error_bind, okB, Bool.false_and, Bool.true_and]
  cases reqDate "event_date" (r "event_date") <;>
    simp only [ok_bind, error_bind, okB, Bool.false_and, Bool.true_and]
  cases reqStr "event_time" (r "event_time") <;>
    simp only [ok_bind, error_bind, okB, Bool.false_and, Bool.true_and]
  cases reqStr "location" (r "location") <;>
    simp only [ok_bind, error_bind, okB, Bool.false_and, Bool.true_and]
  cases reqStr "category" (r "category") <;>
    simp only [ok_bind, error_bind, okB, Bool.false_and, Bool.true_and]
  cases optStr "cover_image" (r "cover_image") <;>
    simp only [ok_bind, error_bind, okB, Bool.false_and, Bool.true_and]
  cases optTags "tags" (r "tags") <;>
    simp only [ok_bind, error_bind, okB, Bool.false_and, Bool.true_and]
  cases optBool "is_featured" (r "is_featured") <;>
    simp only [ok_bind, error_bind, okB, Bool.false_and, Bool.true_and]
  rfl

theorem okB_EventCreate_validate (r : RecordT) :
    okB (EventCreate.validate r) = acceptSpec r := by
  unfold EventCreate.validate acceptSpec
  rw [← okB_reqStr "title" (r "title"), ← okB_reqStr "description" (r "description"),
      ← okB_reqDate "event_date" (r "event_date"), ← okB_reqStr "event_time" (r "event_time"),
      ← okB_reqStr "location" (r "location"), ← okB_reqStr "category" (r "category"),
      ← okB_optStr "cover_image" (r "cover_image"), ← okB_optTags "tags" (r "tags"),
      ← okB_optBool "is_featured" (r "is_featured")]
  cases reqStr "title" (r "title") <;>
    simp only [ok_bind, error_bind, okB, Bool.false_and, Bool.true_and]
  cases reqStr "description" (r "description") <;>
    simp only [ok_bind, error_bind, okB, Bool.false_and, Bool.true_and]
  cases reqDate "event_date" (r "event_date") <;>
    simp only [ok_bind, error_bind, okB, Bool.false_and, Bool.true_and]
  cases reqStr "event_time" (r "event_time") <;>
    simp only [ok_bind, error_bind, okB, Bool.false_and, Bool.true_and]
  cases reqStr "location" (r "location") <;>
    simp only [ok_bind, error_bind, okB, Bool.false_and, Bool.true_and]
  cases reqStr "category" (r "category") <;>
    simp only [ok_bind, error_bind, okB, Bool.false_and, Bool.true_and]
  cases optStr "cover_image" (r "cover_image") <;>
    simp only [ok_bind, error_bind, okB, Bool.false_and, Bool.true_and]
  cases optTags "tags" (r "tags") <;>
    simp only [ok_bind, error_bind, okB, Bool.false_and, Bool.true_and]
  cases optBool "is_featured" (r "is_featured") <;>
    simp only [ok_bind, error_bind, okB, Bool.false_and, Bool.true_and]
  rfl

/-! ## Re-validation of a dumped request model -/

theorem modelDump_title (e : EventCreate) : e.modelDump "title" = some (.vstr e.title) := rfl

theorem modelDump_description (e : EventCreate) :
    e.modelDump "description" = some (.vstr e.description) := rfl

theorem modelDump_edate (e : EventCreate) :
    e.modelDump "event_date" = some (.vdate e.event_date) := rfl

theorem modelDump_etime (e : EventCreate) :
    e.modelDump "event_time" = some (.vstr e.event_time) := rfl

theorem modelDump_location (e : EventCreate) :
    e.modelDump "location" = some (.vstr e.location) := rfl

theorem modelDump_category (e : EventCreate) :
    e.modelDump "category" = some (.vstr e.category) := rfl

theorem modelDump_cover (e : EventCreate) :
    e.modelDump "cover_image" =
      some (match e.cover_image with | some s => .vstr s | none => .vnone) := rfl

theorem modelDump_tags (e : EventCreate) :
    e.modelDump "tags" = some (.vlist (e.tags.map SValue.sstr)) := rfl

theorem modelDump_feat (e : EventCreate) :
    e.modelDump "is_featured" = some (.vbool e.is_featured) := rfl

theorem asStrList_map_ok (n : String) (l : List String) :
    asStrList n (l.map SValue.sstr) = .ok l := by
  induction l with
  | nil => rfl
  | cons s rest ih => simp [asStrList, ih]

theorem revalidate_ok (e : EventCreate) :
    Event.validate e.modelDump =
      .ok ⟨e.title, e.description, e.event_date, e.event_time, e.location,
           e.category, e.cover_image, e.tags, e.is_featured⟩ := by
  unfold Event.validate
  rw [modelDump_title, modelDump_description, modelDump_edate, modelDump_etime,
      modelDump_location, modelDump_category, modelDump_cover, modelDump_tags,
      modelDump_feat]
  cases hc : e.cover_image <;>
    simp [reqStr, reqDate, optStr, optTags, optBool, ok_bind, asStrList_map_ok,
          pure, Except.pure]

/-! ## Gateway-state lemmas for seeding -/

theorem insertAll_preserve (rs : List RecordT) (g : Gateway) :
    (insertAll rs g).2.dbNone = g.dbNone ∧
    (insertAll rs g).2.countFails = g.countFails ∧
    (insertAll rs g).2.findFails = g.findFails ∧
    (insertAll rs g).2.insertFailAt = g.insertFailAt := by
  induction rs generalizing g with
  | nil => exact ⟨rfl, rfl, rfl, rfl⟩
  | cons r rest ih =>
    unfold insertAll create_document
    by_cases h : g.insertFailAt = some g.insertCalls
    · rw [if_pos h]
      exact ⟨rfl, rfl, rfl, rfl⟩
    · rw [if_neg h]
      exact ih _

theorem ensure_seed_preserve (today : PDate) (g : Gateway) :
    (ensure_seed today g).dbNone = g.dbNone ∧
    (ensure_seed today g).countFails = g.countFails ∧
    (ensure_seed today g).findFails = g.findFails ∧
    (ensure_seed today g).insertFailAt = g.insertFailAt := by
  unfold ensure_seed ensure_seed_body count_documents
  by_cases h1 : g.dbNone = true
  · rw [if_pos h1]
    exact ⟨rfl, rfl, rfl, rfl⟩
  · by_cases h2 : g.countFails = true
    · rw [if_neg h1, if_pos h2]
      exact ⟨rfl, rfl, rfl, rfl⟩
    · rw [if_neg h1, if_neg h2]
      dsimp only
      by_cases h3 : g.events.length = 0
      · rw [if_pos h3]
        exact insertAll_preserve _ _
      · rw [if_neg h3]
        exact ⟨rfl, rfl, rfl, rfl⟩

theorem ensure_seed_noop (today : PDate) (g : Gateway)
    (hdb : g.dbNone = false) (hc : g.countFails = false) (hne : g.events ≠ []) :
    ensure_seed today g = g := by
  unfold ensure_seed ensure_seed_body count_documents
  rw [hdb, hc]
  have hlen : ¬g.events.length = 0 := fun h => hne (List.length_eq_zero.mp h)
  simp [hlen]

theorem ensure_seed_seeds (today : PDate) (g : Gateway)
    (hdb : g.dbNone = false) (hc : g.countFails = false) (hins : g.insertFailAt = none)
    (he : g.events = []) :
    (ensure_seed today g).events =
      [setK (sample1 today) "_id" (.voidn g.nextId),
       setK (sample2 today) "_id" (.voidn (g.nextId + 1)),
       setK (sample3 today) "_id" (.voidn (g.nextId + 2))] := by
  unfold ensure_seed ensure_seed_body count_documents SAMPLE_EVENTS
  simp [insertAll, create_document, hdb, hc, he, hins]

/-! # Claim theorems -/

/-- C1 counterexample: a create request that passes validation, submitted
while the gateway insert call fails, is answered with HTTP 400 — a client
error, not the server error (HTTP 500) the claim requires, because the
handler's single `except Exception` clause catches the gateway failure
too. -/
theorem c1_create_gateway_failure_counterexample :
    okB (EventCreate.validate validInput) = true ∧
    (create_api gwBadInsert validInput).1 =
      ApiResponse.failure 400 "Gateway insert failure" ∧
    ((create_api gwBadInsert validInput).1).isServerError = false ∧
    ((create_api gwBadInsert validInput).1).isClientError = true :=
  ⟨rfl, rfl, rfl, rfl⟩

/-- C1 (amended): for every create request whose input passes validation,
if the storage gateway write fails, the Create operation signals HTTP 400
(a client error) carrying the gateway error text, and stores nothing — the
handler's blanket `except Exception` collapses gateway failures into the
validation-error status. -/
theorem c1_create_gateway_failure_amended (g : Gateway) (input : RecordT)
    (ev : EventCreate)
    (hok : EventCreate.validate input = .ok ev)
    (hfail : g.insertFailAt = some g.insertCalls) :
    (create_api g input).1 = ApiResponse.failure 400 "Gateway insert failure" ∧
    ((create_api g input).1).isClientError = true ∧
    ((create_api g input).1).isServerError = false ∧
    (create_api g input).2.events = g.events := by
  unfold create_api
  rw [hok]
  dsimp only
  unfold create_event
  rw [revalidate_ok]
  dsimp only
  unfold create_document
  rw [if_pos hfail]
  exact ⟨rfl, rfl, rfl, rfl⟩

/-- C1 witness: the amended theorem applied to a concrete valid input and a
gateway whose insert call fails. -/
theorem c1_create_gateway_failure_amended_witness :
    (create_api gwBadInsert validInput).1 =
      ApiResponse.failure 400 "Gateway insert failure" ∧
    (create_api gwBadInsert validInput).2.events = gwBadInsert.events := by
  have h := c1_create_gateway_failure_amended gwBadInsert validInput validParsed
    (by rfl) (by rfl)
  exact ⟨h.1, h.2.2.2⟩

/-- C2 counterexample: an input whose `title` is the empty string is
accepted by the schema validator and the create path stores it (HTTP 201,
one record written), contradicting the claim that empty text in a required
field is rejected with no write. -/
theorem c2_validate_counterexample :
    emptyTitleInput "title" = some (.vstr "") ∧
    okB (Event.validate emptyTitleInput) = true ∧
    (create_api gw0 emptyTitleInput).1 =
      ApiResponse.success 201 (.voidn 0) "Event created" ∧
    (create_api gw0 emptyTitleInput).2.events.length = 1 :=
  ⟨rfl, rfl, rfl, rfl⟩

/-- C2 (amended): validation accepts an input mapping if and only if
`title`, `description`, `location`, `category` are present and are text —
the empty string included — `event_date` is a calendar date or parses as
one, `event_time` is text, and the optional fields, when present, have
their declared types; both the `schemas.Event` validator and the
`main.EventCreate` request model agree with this characterization. -/
theorem c2_validate_amended (r : RecordT) :
    okB (Event.validate r) = acceptSpec r ∧
    okB (EventCreate.validate r) = acceptSpec r :=
  ⟨okB_Event_validate r, okB_EventCreate_validate r⟩

/-- C3 counterexample: with `category` provided as the empty string, the
built filter contains no `category` clause at all — the truthiness test
`if category:` collapses the provided-empty case into the omitted case. -/
theorem c3_filter_counterexample :
    build_filter (some "") none = [] ∧
    filterLookup (build_filter (some "") none) "category" = none :=
  ⟨rfl, rfl⟩

/-- C3 (amended): the `category` equality clause is included iff the
category argument is provided AND non-empty (a provided empty string is
dropped by the truthiness test); the `is_featured` clause is included iff
the featured argument is provided, with `featured = false` kept distinct
from featured omitted. -/
theorem c3_filter_amended (category : Option String) (featured : Option Bool) :
    filterLookup (build_filter category featured) "category" =
      (match category with
       | some c => if c = "" then none else some (.vstr c)
       | none => none) ∧
    filterLookup (build_filter category featured) "is_featured" =
      (match featured with
       | some b => some (.vbool b)
       | none => none) := by
  have hne : (("category" : String) == "is_featured") = false := by decide
  cases category with
  | none =>
    cases featured <;> simp [build_filter, filterLookup, List.find?]
  | some c =>
    by_cases hc : c = ""
    · cases featured <;> simp [build_filter, filterLookup, hc, List.find?]
    · cases featured <;> simp [build_filter, filterLookup, hc, List.find?, hne]

/-- C4 counterexample: on a stored record carrying `event_date` and
`event_time`, the serialized output still contains both internal storage
keys — they are copied to `date`/`time`, not renamed away — so the output
does not match the claimed wire shape in which `event_date` and
`event_time` are absent. -/
theorem c4_serialize_counterexample :
    (serialize_event storedRec) "event_date" = some (.vdate ⟨2025, 5, 1⟩) ∧
    (serialize_event storedRec) "event_time" = some (.vstr "5 PM") :=
  ⟨rfl, rfl⟩

/-- C4 (amended): the serialized record exposes the storage identifier only
under `id` in string form (the raw `_id` key is always absent from the
output), exposes the date under `date` (ISO text) and the time under
`time`; however the internal storage keys `event_date` and `event_time`
are retained unchanged in the output alongside their renamed copies. -/
theorem c4_serialize_amended (d : RecordT) :
    (serialize_event d) "_id" = none ∧
    (serialize_event d) "id" =
      (match d "_id" with
       | some v => some (.vstr (pyStr v))
       | none => d "id") ∧
    (serialize_event d) "date" =
      (match d "event_date" with
       | some v => some (.vstr (renderDate v))
       | none => d "date") ∧
    (serialize_event d) "time" =
      (match d "event_time" with
       | some v => some v
       | none => d "time") ∧
    (serialize_event d) "event_date" = d "event_date" ∧
    (serialize_event d) "event_time" = d "event_time" :=
  ⟨serialize_event_uid d, serialize_event_id d, serialize_event_date d,
   serialize_event_time d, serialize_event_edate d, serialize_event_etime d⟩

/-- C5: serialization is idempotent on the fields it converts — feeding an
already-serialized record through `serialize_event` again leaves the
`date`, `time`, and `id` values unchanged. -/
theorem c5_serialize_idempotent (x : RecordT) :
    (serialize_event (serialize_event x)) "date" = (serialize_event x) "date" ∧
    (serialize_event (serialize_event x)) "time" = (serialize_event x) "time" ∧
    (serialize_event (serialize_event x)) "id" = (serialize_event x) "id" := by
  refine ⟨?_, ?_, ?_⟩
  · rw [serialize_event_date (serialize_event x), serialize_event_edate x]
    cases h : x "event_date" with
    | none => rfl
    | some v =>
      rw [serialize_event_date x, h]
  · rw [serialize_event_time (serialize_event x), serialize_event_etime x]
    cases h : x "event_time" with
    | none => rfl
    | some v =>
      rw [serialize_event_time x, h]
  · rw [serialize_event_id (serialize_event x), serialize_event_uid x]

/-- C6: `serialize_event` is total over every record shape the gateway can
return — with each raising Python primitive made explicit, it always
returns `ok` (records missing optional fields, already-string date values,
and arbitrary extra fields included); the input record is not modified, by
construction of the embedding (`dict(d)` copy, immutable `RecordT`). -/
theorem c6_serialize_total (d : RecordT) :
    serialize_eventE d = .ok (serialize_event d) :=
  serialize_eventE_ok d

/-- C7: on a healthy gateway, seeding inserts the fixed ordered list of
exactly three sample events, one at a time in order, iff the `event`
collection count is zero; a non-empty collection is left entirely
untouched, and a second sequential call inserts nothing. -/
theorem c7_seed_exactly_three_iff_empty (today : PDate) (g : Gateway)
    (h : g.healthy) :
    (g.events = [] →
      (ensure_seed today g).events =
        [setK (sample1 today) "_id" (.voidn g.nextId),
         setK (sample2 today) "_id" (.voidn (g.nextId + 1)),
         setK (sample3 today) "_id" (.voidn (g.nextId + 2))]) ∧
    (g.events ≠ [] → ensure_seed today g = g) ∧
    ensure_seed today (ensure_seed today g) = ensure_seed today g := by
  obtain ⟨hdb, hc, hins⟩ := h
  refine ⟨fun he => ensure_seed_seeds today g hdb hc hins he,
          fun hne => ensure_seed_noop today g hdb hc hne, ?_⟩
  by_cases he : g.events = []
  · have hev := ensure_seed_seeds today g hdb hc hins he
    have hp := ensure_seed_preserve today g
    apply ensure_seed_noop
    · rw [hp.1, hdb]
    · rw [hp.2.1, hc]
    · rw [hev]
      simp
  · have e2 := ensure_seed_noop today g hdb hc he
    rw [e2]
    exact e2

/-- C7 witness: the theorem applied to a healthy empty gateway — three
records are inserted and the second call is a no-op. -/
theorem c7_seed_exactly_three_iff_empty_witness :
    gw0.healthy ∧
    (ensure_seed today0 gw0).events.length = 3 ∧
    ensure_seed today0 (ensure_seed today0 gw0) = ensure_seed today0 gw0 := by
  have h := c7_seed_exactly_three_iff_empty today0 gw0 ⟨rfl, rfl, rfl⟩
  refine ⟨⟨rfl, rfl, rfl⟩, ?_, h.2.2⟩
  rw [h.1 rfl]
  rfl

/-- C8: every failure raised during seeding is swallowed — whatever the
seeding-path failure flags (`dbNone` aside, which would also fail the
query), the list operation proceeds to the query and returns exactly the
serialized current contents of the collection. -/
theorem c8_seeding_failures_swallowed (today : PDate) (g : Gateway)
    (category : Option String) (featured : Option Bool)
    (hdb : g.dbNone = false) (hff : g.findFails = false) :
    (list_events today g category featured).1 =
      .ok ((((ensure_seed today g).events).filter
              (matchesF (build_filter category featured))).map serialize_event) := by
  unfold list_events get_documents
  have hp := ensure_seed_preserve today g
  rw [hp.1, hdb, hp.2.2.1, hff]
  rw [if_neg Bool.false_ne_true, if_neg Bool.false_ne_true]
  dsimp only
  rw [serializeAll_ok]

/-- C8 witness: the theorem applied to a gateway whose count call raises —
the seeding failure is swallowed and the list still answers `ok` with the
(empty) collection contents. -/
theorem c8_seeding_failures_swallowed_witness :
    gwBadCount.countFails = true ∧
    (list_events today0 gwBadCount none none).1 = .ok [] := by
  refine ⟨rfl, ?_⟩
  rw [c8_seeding_failures_swallowed today0 gwBadCount none none rfl rfl]
  rfl

/-- C9: for every input on which request validation fails, the create path
signals a client error (HTTP 422 from body parsing) carrying the
validation message, and the gateway state is completely unchanged — no
write happens, and validation runs before any write. -/
theorem c9_validation_failure_no_write (g : Gateway) (input : RecordT)
    (e : String)
    (hfail : EventCreate.validate input = .error e) :
    (create_api g input).1 = ApiResponse.failure 422 e ∧
    ((create_api g input).1).isClientError = true ∧
    (create_api g input).2 = g := by
  unfold create_api
  rw [hfail]
  exact ⟨rfl, rfl, rfl⟩

/-- C9 witness: the theorem applied to an input missing `title` on a
healthy gateway. -/
theorem c9_validation_failure_no_write_witness :
    (create_api gw0 missingTitleInput).1 =
      ApiResponse.failure 422 "title: Field required" ∧
    (create_api gw0 missingTitleInput).2 = gw0 := by
  have h := c9_validation_failure_no_write gw0 missingTitleInput
    "title: Field required" (by rfl)
  exact ⟨h.1, h.2.2⟩

/-- C10: the request model `EventCreate` and the storage schema `Event`
accept exactly the same inputs, and re-validating the dumped fields of any
parsed request model always succeeds (with the same field values), so the
re-validation step inside the create handler can never fail once request
parsing has succeeded. -/
theorem c10_revalidation_never_fails :
    (∀ r : RecordT, okB (EventCreate.validate r) = okB (Event.validate r)) ∧
    (∀ e : EventCreate,
      Event.validate e.modelDump =
        .ok ⟨e.title, e.description, e.event_date, e.event_time, e.location,
             e.category, e.cover_image, e.tags, e.is_featured⟩) :=
  ⟨fun r => (okB_EventCreate_validate r).trans (okB_Event_validate r).symm,
   fun e => revalidate_ok e⟩
